import Mathlib

/-!
Shallow embedding of the nutrition and lifestyle scoring core of the
FitGenix repository (src/app/nutrition.py and src/app/meals.py).

Python optional values are modelled by the inductive type `Val`:
`Val.none` is the Python `None`, `Val.num q` a numeric value, and
`Val.junk` a non-numeric object on which `float(...)` raises.  Numeric
arithmetic is carried out over `ℚ`; the decimal literals appearing in
the source are exact in `ℚ`.  Python `round(x, 2)` is modelled by
`pyround2`; the half-even versus half-up distinction only matters at
exact half-cent midpoints, which none of the verified statements touch.
Each `try/except` block of the source is modelled with `Except Unit`:
an uncaught exception surfaces as `Except.error ()` of the embedding.
-/

/-- Python optional scalar: None, a numeric value, or a non-numeric
object whose conversion by float raises. -/
inductive Val where
  | none : Val
  | num : ℚ → Val
  | junk : Val
deriving DecidableEq, Repr

/-- Python truthiness of a `Val`: None and 0 are falsy, any other
number is truthy, and a generic non-numeric object is truthy. -/
def Val.truthy : Val → Bool
  | Val.none => false
  | Val.num q => q ≠ 0
  | Val.junk => true

/-- Python float conversion: numbers convert, None and junk raise. -/
def pyFloat : Val → Except Unit ℚ
  | Val.num q => Except.ok q
  | _ => Except.error ()

/-- Python `x or d` with a numeric literal default `d`. -/
def orD (v : Val) (d : ℚ) : Val :=
  if v.truthy then v else Val.num d

/-- Python `str.strip()`: leading and trailing whitespace removed.
Implemented over the character list so that it evaluates by kernel
reduction. -/
def pyStrip (s : String) : String :=
  String.mk (((s.data.dropWhile Char.isWhitespace).reverse.dropWhile
    Char.isWhitespace).reverse)

/-- Python optional string: None, a string, or a non-string object on
which `.strip()` raises. -/
inductive PyStr where
  | none : PyStr
  | str : String → PyStr
  | junk : PyStr
deriving DecidableEq, Repr

/-- User profile record as consumed by the target estimator.  Absent
attributes are `Val.none` (respectively `Option.none` for the birth
date), which matches the getattr defaults of the source. -/
structure UserProfile where
  target_calories : Val
  birth_year : Option ℤ
  sex : String
  height_cm : Val
  weight_kg : Val
  activity_multiplier : Val
  activity_level : String
  goal : String
deriving DecidableEq, Repr

/-- Age derivation of the source: current year minus birth year when a
birth date is present, otherwise the default 30. -/
def userAge (todayYear : ℤ) (u : UserProfile) : ℚ :=
  match u.birth_year with
  | some b => ((todayYear - b : ℤ) : ℚ)
  | none => 30

/-- Embedding of `compute_bmr` (src/app/nutrition.py lines 50-62):
Mifflin-St Jeor with getattr/or defaults 70 and 170, floored at 800;
the enclosing try/except returns 1600.0 on any conversion failure. -/
def compute_bmr (todayYear : ℤ) (u : UserProfile) : ℚ :=
  match pyFloat (orD u.weight_kg 70), pyFloat (orD u.height_cm 170) with
  | Except.ok w, Except.ok h =>
    let age := userAge todayYear u
    if u.sex = "male" then max 800 (10 * w + 6.25 * h - 5 * age + 5)
    else max 800 (10 * w + 6.25 * h - 5 * age - 161)
  | _, _ => 1600

/-- Embedding of `_activity_multiplier_from_level`
(src/app/nutrition.py lines 64-72). -/
def activity_multiplier_from_level (level : String) : ℚ :=
  if level = "sedentary" then 1.2
  else if level = "light" then 1.375
  else if level = "moderate" then 1.55
  else if level = "active" then 1.725
  else if level = "very_active" then 1.9
  else 1.2

/-- A loaded predictive model: `predict` applied to one feature row,
returning the converted float or raising. -/
def PyModel : Type := List ℚ → Except Unit ℚ

/-- Embedding of `predict_target_from_model` (src/app/nutrition.py
lines 25-48).  The model parameter is the result of
`load_target_model`: `Option.none` when no model is available.  Feature
conversion failures are not caught and surface as `Except.error`;
failures of `model.predict` or of the final float conversion are caught
and yield `Except.ok Option.none`. -/
def predict_target_from_model (model : Option PyModel) (todayYear : ℤ)
    (u : UserProfile) : Except Unit (Option ℚ) :=
  match model with
  | Option.none => Except.ok Option.none
  | some f => do
    let age := userAge todayYear u
    let sex : ℚ := if u.sex = "male" then 1 else 0
    let h ← pyFloat (orD u.height_cm 165)
    let w ← pyFloat (orD u.weight_kg 70)
    let a ← pyFloat (orD u.activity_multiplier 1.3)
    let g : ℚ := if u.goal = "lose" then -1 else if u.goal = "gain" then 1 else 0
    match f [age, sex, h, w, a, g] with
    | Except.ok p => Except.ok (some p)
    | Except.error _ => Except.ok Option.none

/-- Result of `compute_daily_targets`: the returned dict carries the
same value under both of its keys. -/
structure TargetResult where
  target : ℚ
  target_calories : ℚ
deriving DecidableEq, Repr

/-- Formula branch of `compute_daily_targets` (src/app/nutrition.py
lines 83-96): BMR times multiplier, goal adjustment, clamp to
[1000, 4500]. -/
def formula_target (todayYear : ℤ) (u : UserProfile) : ℚ :=
  let bmr := compute_bmr todayYear u
  let multv := if u.activity_multiplier.truthy then u.activity_multiplier
               else Val.num (activity_multiplier_from_level u.activity_level)
  let m : ℚ := match pyFloat multv with
    | Except.ok q => q
    | Except.error _ => 1.3
  let t0 := bmr * m
  let t1 := if u.goal = "lose" then t0 - 300
            else if u.goal = "gain" then t0 + 300 else t0
  max 1000 (min 4500 t1)

/-- Embedding of `compute_daily_targets` (src/app/nutrition.py lines
74-96): truthy override returned verbatim (its conversion failure is
caught and skipped), then the model prediction when truthy, otherwise
the clamped formula value.  An exception escaping
`predict_target_from_model` is not caught and propagates. -/
def compute_daily_targets (model : Option PyModel) (todayYear : ℤ)
    (u : UserProfile) : Except Unit TargetResult :=
  match (if u.target_calories.truthy then pyFloat u.target_calories
         else Except.error ()) with
  | Except.ok q => Except.ok ⟨q, q⟩
  | Except.error _ =>
    match predict_target_from_model model todayYear u with
    | Except.error e => Except.error e
    | Except.ok mp =>
      match mp with
      | some p =>
        if p = 0 then
          Except.ok ⟨formula_target todayYear u, formula_target todayYear u⟩
        else Except.ok ⟨p, p⟩
      | Option.none =>
        Except.ok ⟨formula_target todayYear u, formula_target todayYear u⟩

/-- One item of the primary nutrition API response; absent fields are
`Val.none` (the dict get default 0 combined with `or 0` makes an
absent field behave as 0). -/
structure NinjaItem where
  calories : Val
  protein_g : Val
  carbohydrates_total_g : Val
  fat_total_g : Val
deriving DecidableEq, Repr

/-- Sum of `float(i.get(field, 0) or 0)` over a list of field values;
the first conversion failure raises. -/
def sumVals : List Val → Except Unit ℚ
  | [] => Except.ok 0
  | v :: rest => do
    let x ← pyFloat (orD v 0)
    let r ← sumVals rest
    Except.ok (x + r)

/-- The four nutrient sums over the primary API items. -/
def ninjaSums (items : List NinjaItem) : Except Unit (ℚ × ℚ × ℚ × ℚ) := do
  let k ← sumVals (items.map (fun i => i.calories))
  let p ← sumVals (items.map (fun i => i.protein_g))
  let c ← sumVals (items.map (fun i => i.carbohydrates_total_g))
  let f ← sumVals (items.map (fun i => i.fat_total_g))
  Except.ok (k, p, c, f)

/-- An HTTP interaction with an external source: a raised transport or
decoding error, or a response with a status code and decoded body. -/
inductive HttpResult (α : Type) where
  | raise : HttpResult α
  | resp : Nat → α → HttpResult α
deriving DecidableEq, Repr

/-- Body of the secondary (Edamam) API response: top level calories and
the PROCNT/CHOCDF/FAT quantities, absent fields being `Val.none`. -/
structure EdamamBody where
  calories : Val
  procnt : Val
  chocdf : Val
  fat : Val
deriving DecidableEq, Repr

/-- One record of the local nutrition table.  The energy field models
`rec.get("energy_kcal", rec.get("kcal", 0) or 0)`: `Option.none` is an
absent key, in which case the kcal field (with the same convention)
supplies the default. -/
structure DbRec where
  energy_kcal : Option Val
  kcal : Option Val
  protein_g : Val
  carbs_g : Val
  fat_g : Val
deriving DecidableEq, Repr

/-- Nutrition lookup result of `lookup_nutrition_text`. -/
structure NutritionResult where
  kcal : ℚ
  protein_g : ℚ
  carbs_g : ℚ
  fat_g : ℚ
  source : String
deriving DecidableEq, Repr

/-- External world as seen by one call of `lookup_nutrition_text`:
which API keys are configured, the responses the two providers would
give for the query, and the content of the local table file
(`Option.none` when the file does not exist). -/
structure LookupEnv where
  ninjasKey : Bool
  primaryResp : HttpResult (List NinjaItem)
  edamamKeys : Bool
  edamamResp : HttpResult EdamamBody
  localDb : Option (List (String × DbRec))

/-- Primary stage of the lookup chain (src/app/nutrition.py lines
102-119): on a 200 response with a nonempty items list, the four sums
are returned whatever the calorie total is; every failure falls
through as `Option.none`. -/
def primaryStage (e : LookupEnv) : Option NutritionResult :=
  if e.ninjasKey = false then Option.none else
  match e.primaryResp with
  | HttpResult.raise => Option.none
  | HttpResult.resp status items =>
    if status ≠ 200 then Option.none
    else if items.isEmpty then Option.none
    else match ninjaSums items with
      | Except.error _ => Option.none
      | Except.ok (k, p, c, f) => some ⟨k, p, c, f, "calorieninjas"⟩

/-- Secondary stage of the lookup chain (src/app/nutrition.py lines
121-137). -/
def edamamStage (e : LookupEnv) : Option NutritionResult :=
  if e.edamamKeys = false then Option.none else
  match e.edamamResp with
  | HttpResult.raise => Option.none
  | HttpResult.resp status body =>
    if status ≠ 200 then Option.none
    else
      match (do
        let k ← pyFloat (orD body.calories 0)
        let p ← pyFloat (orD body.procnt 0)
        let c ← pyFloat (orD body.chocdf 0)
        let f ← pyFloat (orD body.fat 0)
        Except.ok (k, p, c, f) : Except Unit (ℚ × ℚ × ℚ × ℚ)) with
      | Except.error _ => Option.none
      | Except.ok (k, p, c, f) => some ⟨k, p, c, f, "edamam"⟩

/-- Extraction of a local table record (src/app/nutrition.py lines
146-153); a conversion failure is caught by the enclosing try and
yields `Option.none`. -/
def dbRecResult (rec : DbRec) : Option NutritionResult :=
  match (do
    let kv : Val :=
      match rec.energy_kcal with
      | some v => v
      | Option.none => orD (rec.kcal.getD (Val.num 0)) 0
    let k ← pyFloat kv
    let p ← pyFloat (orD rec.protein_g 0)
    let c ← pyFloat (orD rec.carbs_g 0)
    let f ← pyFloat (orD rec.fat_g 0)
    Except.ok (k, p, c, f) : Except Unit (ℚ × ℚ × ℚ × ℚ)) with
  | Except.error _ => Option.none
  | Except.ok (k, p, c, f) => some ⟨k, p, c, f, "indian_db"⟩

/-- Local table stage of the lookup chain (src/app/nutrition.py lines
139-155): exact match on the lowercased query. -/
def localStage (e : LookupEnv) (key : String) : Option NutritionResult :=
  match e.localDb with
  | Option.none => Option.none
  | some db =>
    match db.lookup key.toLower with
    | Option.none => Option.none
    | some rec => dbRecResult rec

/-- Embedding of `lookup_nutrition_text` (src/app/nutrition.py lines
98-157): empty or whitespace-only queries return None at once, then
the three stages are tried in order. -/
def lookup_nutrition_text (e : LookupEnv) (text : Option String) :
    Option NutritionResult :=
  match text with
  | Option.none => Option.none
  | some t =>
    if pyStrip t = "" then Option.none
    else
      match primaryStage e with
      | some r => some r
      | Option.none =>
        match edamamStage e with
        | some r => some r
        | Option.none => localStage e (pyStrip t)

/-- Result of the meals-blueprint primary lookup. -/
structure MealNutrition where
  calories : ℚ
  protein : ℚ
  carbs : ℚ
  fat : ℚ
deriving DecidableEq, Repr

/-- Embedding of `lookup_calories_calorieninjas` (src/app/meals.py
lines 21-65): primary source only, and a zero calorie total is
explicitly turned into None.  The source accumulates the four sums in
one loop over the items; the accumulated values coincide with
`ninjaSums` and a conversion failure yields None either way. -/
def lookup_calories_calorieninjas (key : Bool)
    (resp : HttpResult (List NinjaItem)) : Option MealNutrition :=
  if key = false then Option.none else
  match resp with
  | HttpResult.raise => Option.none
  | HttpResult.resp status items =>
    if status ≠ 200 then Option.none
    else if items.isEmpty then Option.none
    else match ninjaSums items with
      | Except.error _ => Option.none
      | Except.ok (k, p, c, f) =>
        if k > 0 then some ⟨k, p, c, f⟩ else Option.none

/-- Meal record as consumed by `compute_flags_for_meal`. -/
structure Meal where
  name : PyStr
  calories : Val
deriving DecidableEq, Repr

/-- Conversion block of `compute_flags_for_meal` (src/app/nutrition.py
lines 160-165): `(meal.name or "").strip()` raises on a non-string
truthy name, `float(meal.calories or 0)` raises on junk calories;
either failure is caught, leaving name empty and calories zero. -/
def mealConv (m : Meal) : String × ℚ :=
  match (do
    let n : String ←
      match m.name with
      | PyStr.str s => Except.ok (pyStrip s)
      | PyStr.none => Except.ok ""
      | PyStr.junk => Except.error ()
    let c ← pyFloat (orD m.calories 0)
    Except.ok (n, c) : Except Unit (String × ℚ)) with
  | Except.ok p => p
  | Except.error _ => ("", 0)

/-- Embedding of `compute_flags_for_meal` (src/app/nutrition.py lines
159-173): after the conversion block, the three rules fire in order,
first match winning. -/
def compute_flags_for_meal (m : Meal) : Bool × String :=
  if (mealConv m).1 = "" then (true, "Missing meal name")
  else if (mealConv m).2 ≤ 0 then (true, "Calories missing or zero")
  else if (mealConv m).2 > 2000 then (true, "Unusually high calories")
  else (false, "")

/-- Embedding of the inner `score_range` of `compute_lifestyle_points`
(src/app/nutrition.py lines 176-187). -/
def score_range (val : Val) (low mid high : ℚ) : ℚ :=
  match pyFloat val with
  | Except.error _ => 0
  | Except.ok v =>
    if v ≤ low ∨ v ≥ high then 0
    else if v = mid then 1
    else if v < mid then (v - low) / (mid - low)
    else (high - v) / (high - mid)

/-- Python `round(x, 2)` over exact rationals. -/
def pyround2 (x : ℚ) : ℚ := ((round (x * 100) : ℤ) : ℚ) / 100

/-- Calorie ratio block of `compute_lifestyle_points`
(src/app/nutrition.py lines 192-198): a falsy or nonpositive target
gives ratio 1, a junk target or junk intake raises inside the try and
is caught to ratio 1, otherwise intake (defaulted to 0) over target. -/
def calRatio (calories_intake target_calories : Val) : ℚ :=
  match target_calories with
  | Val.none => 1
  | Val.junk => 1
  | Val.num q =>
    if q = 0 then 1
    else if q ≤ 0 then 1
    else
      match calories_intake with
      | Val.none => 0
      | Val.junk => 1
      | Val.num i => i / q

/-- Embedding of `compute_lifestyle_points` (src/app/nutrition.py
lines 175-203).  The burn conversion on line 189 is outside every
try/except, so a junk calories_burned raises out of the function. -/
def compute_lifestyle_points (calories_burned sleep_hours
    avg_meal_interval_hours calories_intake target_calories avg_bpm : Val) :
    Except Unit ℚ := do
  let burnv ← pyFloat (orD calories_burned 0)
  let burn_score := min 1 (burnv / 400)
  let sleep_score := score_range (orD sleep_hours 0) 4 7.5 9.5
  let meal_interval_score := score_range (orD avg_meal_interval_hours 3.5) 0.5 3.5 6
  let cal_score := score_range (Val.num (calRatio calories_intake target_calories)) 0.6 1 1.3
  let bpm_score := score_range (orD avg_bpm 60) 40 64 86
  let total := 0.28 * burn_score + 0.25 * sleep_score + 0.18 * meal_interval_score
    + 0.20 * cal_score + 0.09 * bpm_score
  Except.ok (pyround2 (total * 100))

/-- Numeric value reaching the feature vector of
`predict_target_from_model` for a non-junk attribute: the attribute
itself when it is a nonzero number, the stated default otherwise. -/
def valOrDefault (v : Val) (d : ℚ) : ℚ :=
  match v with
  | Val.num q => if q = 0 then d else q
  | _ => d

/-- Feature row sent to the model by `predict_target_from_model`. -/
def featureVec (y : ℤ) (u : UserProfile) : List ℚ :=
  [userAge y u, if u.sex = "male" then 1 else 0,
   valOrDefault u.height_cm 165, valOrDefault u.weight_kg 70,
   valOrDefault u.activity_multiplier 1.3,
   if u.goal = "lose" then -1 else if u.goal = "gain" then 1 else 0]

/-- Mifflin-St Jeor expression as the claim states it. -/
def mifflin_st_jeor (sex : String) (w h age : ℚ) : ℚ :=
  if sex = "male" then 10 * w + 6.25 * h - 5 * age + 5
  else 10 * w + 6.25 * h - 5 * age - 161

/-- Goal adjustment as the claim states it. -/
def goal_adjust (g : String) (t : ℚ) : ℚ :=
  if g = "lose" then t - 300 else if g = "gain" then t + 300 else t

/-- Formula-path target as the claim describes it: BMR floored at 800,
multiplied, goal adjusted, clamped to [1000, 4500].  Stated separately
from the embedding so that the two can be compared. -/
def spec_formula_target (sex : String) (w h age mult : ℚ) (goal : String) : ℚ :=
  max 1000 (min 4500 (goal_adjust goal (max 800 (mifflin_st_jeor sex w h age) * mult)))

/-- Profile of the worked formula example of the claim. -/
def userFormulaEx : UserProfile :=
  ⟨Val.none, Option.none, "male", Val.num 175, Val.num 70, Val.none,
   "sedentary", "maintain"⟩

/-- The worked example profile with an explicit activity multiplier of
0 present. -/
def userZeroMult : UserProfile :=
  ⟨Val.none, Option.none, "male", Val.num 175, Val.num 70, Val.num 0,
   "sedentary", "maintain"⟩

/-- Items of a primary response whose calories sum to zero. -/
def itemsZero : List NinjaItem := [⟨Val.num 0, Val.num 0, Val.num 0, Val.num 0⟩]

/-- Environment whose primary source answers 200 with a zero-calorie
item while the secondary source would answer with 95 kcal. -/
def envZeroPrimary : LookupEnv :=
  ⟨true, HttpResult.resp 200 itemsZero, true,
   HttpResult.resp 200 ⟨Val.num 95, Val.num 3, Val.num 20, Val.num 1⟩,
   Option.none⟩

/-- Record of the local nutrition table used by witness environments. -/
def dbRecW : DbRec := ⟨some (Val.num 7), Option.none, Val.num 1, Val.num 1, Val.num 1⟩

/-- Environment in which every source would produce a result, even for
the empty key in the local table. -/
def envAllLive : LookupEnv :=
  ⟨true, HttpResult.resp 200 [⟨Val.num 95, Val.num 1, Val.num 25, Val.num 0⟩],
   true, HttpResult.resp 200 ⟨Val.num 95, Val.num 1, Val.num 25, Val.num 0⟩,
   some [("", dbRecW)]⟩

/-- Value produced by `compute_lifestyle_points` when the burn
conversion succeeds (the burn signal is absent or numeric). -/
def lifestyleTotal (b sl mi ci t bpm : Val) : ℚ :=
  pyround2 ((0.28 * min 1 (valOrDefault b 0 / 400)
    + 0.25 * score_range (orD sl 0) 4 7.5 9.5
    + 0.18 * score_range (orD mi 3.5) 0.5 3.5 6
    + 0.20 * score_range (Val.num (calRatio ci t)) 0.6 1 1.3
    + 0.09 * score_range (orD bpm 60) 40 64 86) * 100)

lemma pyFloat_orD_eq (v : Val) (d : ℚ) (hv : v ≠ Val.junk) :
    pyFloat (orD v d) = Except.ok (valOrDefault v d) := by
  cases v with
  | none => simp [orD, Val.truthy, pyFloat, valOrDefault]
  | junk => exact absurd rfl hv
  | num q =>
    by_cases hq : q = 0 <;>
      simp [orD, Val.truthy, pyFloat, valOrDefault, hq]

lemma score_range_not_num (l m h : ℚ) :
    score_range Val.none l m h = 0 ∧ score_range Val.junk l m h = 0 := by
  constructor <;> rfl

lemma score_range_outside (l m h v : ℚ) (hv : v ≤ l ∨ h ≤ v) :
    score_range (Val.num v) l m h = 0 := by
  simp only [score_range, pyFloat]
  rw [if_pos]
  rcases hv with hv | hv
  · exact Or.inl hv
  · exact Or.inr hv

lemma score_range_up (l m h v : ℚ) (hlm : l < m) (hmh : m < h)
    (h1 : l ≤ v) (h2 : v ≤ m) :
    score_range (Val.num v) l m h = (v - l) / (m - l) := by
  simp only [score_range, pyFloat]
  rcases eq_or_lt_of_le h1 with rfl | hlv
  · rw [if_pos (Or.inl le_rfl)]
    simp
  · rcases eq_or_lt_of_le h2 with rfl | hvm
    · rw [if_neg, if_pos rfl, div_self (by linarith)]
      push_neg
      exact ⟨by linarith, by linarith⟩
    · rw [if_neg, if_neg (by linarith), if_pos hvm]
      push_neg
      exact ⟨by linarith, by linarith⟩

lemma score_range_down (l m h v : ℚ) (hlm : l < m) (hmh : m < h)
    (h1 : m ≤ v) (h2 : v ≤ h) :
    score_range (Val.num v) l m h = (h - v) / (h - m) := by
  simp only [score_range, pyFloat]
  rcases eq_or_lt_of_le h2 with rfl | hvh
  · rw [if_pos (Or.inr le_rfl)]
    simp
  · rcases eq_or_lt_of_le h1 with rfl | hmv
    · rw [if_neg, if_pos rfl, div_self (by linarith)]
      push_neg
      exact ⟨by linarith, by linarith⟩
    · rw [if_neg, if_neg (by linarith), if_neg (by linarith)]
      push_neg
      exact ⟨by linarith, by linarith⟩

lemma score_range_nonneg (v : Val) (l m h : ℚ) (hlm : l < m) (hmh : m < h) :
    0 ≤ score_range v l m h := by
  cases v with
  | none => rw [(score_range_not_num l m h).1]
  | junk => rw [(score_range_not_num l m h).2]
  | num q =>
    rcases le_or_lt q l with hql | hql
    · rw [score_range_outside l m h q (Or.inl hql)]
    · rcases le_or_lt h q with hqh | hqh
      · rw [score_range_outside l m h q (Or.inr hqh)]
      · rcases le_or_lt q m with hqm | hqm
        · rw [score_range_up l m h q hlm hmh (le_of_lt hql) hqm]
          exact div_nonneg (by linarith) (by linarith)
        · rw [score_range_down l m h q hlm hmh (le_of_lt hqm) (le_of_lt hqh)]
          exact div_nonneg (by linarith) (by linarith)

lemma score_range_le_one (v : Val) (l m h : ℚ) (hlm : l < m) (hmh : m < h) :
    score_range v l m h ≤ 1 := by
  cases v with
  | none => rw [(score_range_not_num l m h).1]; exact zero_le_one
  | junk => rw [(score_range_not_num l m h).2]; exact zero_le_one
  | num q =>
    rcases le_or_lt q l with hql | hql
    · rw [score_range_outside l m h q (Or.inl hql)]; exact zero_le_one
    · rcases le_or_lt h q with hqh | hqh
      · rw [score_range_outside l m h q (Or.inr hqh)]; exact zero_le_one
      · rcases le_or_lt q m with hqm | hqm
        · rw [score_range_up l m h q hlm hmh (le_of_lt hql) hqm]
          rw [div_le_one (by linarith)]
          linarith
        · rw [score_range_down l m h q hlm hmh (le_of_lt hqm) (le_of_lt hqh)]
          rw [div_le_one (by linarith)]
          linarith

lemma round_q_mono {x y : ℚ} (hxy : x ≤ y) : round x ≤ round y := by
  rw [round_eq, round_eq]
  exact Int.floor_le_floor (by linarith)

lemma pyround2_bounds {x : ℚ} (h0 : 0 ≤ x) (h1 : x ≤ 100) :
    0 ≤ pyround2 x ∧ pyround2 x ≤ 100 := by
  unfold pyround2
  have l1 : (0 : ℤ) ≤ round (x * 100) := by
    have hr := round_q_mono (show (0:ℚ) ≤ x * 100 by nlinarith)
    rwa [round_zero] at hr
  have l2 : round (x * 100) ≤ 10000 := by
    have hr := round_q_mono (show x * 100 ≤ ((10000:ℤ):ℚ) by push_cast; nlinarith)
    rwa [round_intCast] at hr
  constructor
  · exact div_nonneg (by exact_mod_cast l1) (by norm_num)
  · rw [div_le_iff₀ (by norm_num : (0:ℚ) < 100)]
    calc ((round (x * 100) : ℤ) : ℚ) ≤ ((10000:ℤ) : ℚ) := by exact_mod_cast l2
    _ = 100 * 100 := by norm_num

lemma compute_lifestyle_points_ok (b sl mi ci t bpm : Val)
    (hb : b ≠ Val.junk) :
    compute_lifestyle_points b sl mi ci t bpm
      = Except.ok (lifestyleTotal b sl mi ci t bpm) := by
  unfold compute_lifestyle_points lifestyleTotal
  rw [pyFloat_orD_eq b 0 hb]
  rfl

lemma predict_ok (f : PyModel) (y : ℤ) (u : UserProfile)
    (hh : u.height_cm ≠ Val.junk) (hw : u.weight_kg ≠ Val.junk)
    (ha : u.activity_multiplier ≠ Val.junk) :
    predict_target_from_model (some f) y u =
      Except.ok (match f (featureVec y u) with
        | Except.ok p => some p
        | Except.error _ => Option.none) := by
  unfold predict_target_from_model featureVec
  rw [pyFloat_orD_eq _ _ hh, pyFloat_orD_eq _ _ hw, pyFloat_orD_eq _ _ ha]
  simp only [Bind.bind, Except.bind]
  cases f [userAge y u, if u.sex = "male" then 1 else 0,
      valOrDefault u.height_cm 165, valOrDefault u.weight_kg 70,
      valOrDefault u.activity_multiplier 1.3,
      if u.goal = "lose" then -1 else if u.goal = "gain" then 1 else 0] <;>
    rfl

/-- C1 counterexample: the chained lookup returns the zero-calorie
primary result instead of continuing to the secondary source, which
would have answered 95 kcal. -/
theorem C1_counterexample :
    lookup_nutrition_text envZeroPrimary (some "rice")
      = some ⟨0, 0, 0, 0, "calorieninjas"⟩ ∧
    edamamStage envZeroPrimary = some ⟨95, 3, 20, 1, "edamam"⟩ := by
  constructor
  · dsimp only [lookup_nutrition_text]
    rw [if_neg (by decide : ¬ (pyStrip "rice" = ""))]
    norm_num [primaryStage, envZeroPrimary, itemsZero, ninjaSums, sumVals,
      pyFloat, orD, Val.truthy, Bind.bind, Except.bind]
  · norm_num [edamamStage, envZeroPrimary, pyFloat, orD, Val.truthy,
      Bind.bind, Except.bind]

/-- C1 amended: on a 200 response with nonempty items whose calories
sum to 0, the primary-only helper of the meals blueprint returns
absent, while the chained lookup returns the zero-calorie primary
result and does not continue the chain. -/
theorem C1_amended (key : Bool) (resp : HttpResult (List NinjaItem))
    (items : List NinjaItem) (p c f : ℚ)
    (hresp : resp = HttpResult.resp 200 items) (hne : items ≠ [])
    (hsum : ninjaSums items = Except.ok (0, p, c, f)) :
    lookup_calories_calorieninjas key resp = Option.none ∧
    (∀ (e : LookupEnv) (s : String), e.ninjasKey = true →
      e.primaryResp = resp → pyStrip s ≠ "" →
      lookup_nutrition_text e (some s) = some ⟨0, p, c, f, "calorieninjas"⟩) := by
  constructor
  · cases key with
    | false => rfl
    | true =>
      subst hresp
      unfold lookup_calories_calorieninjas
      cases items with
      | nil => exact absurd rfl hne
      | cons a as => simp [hsum]
  · intro e s hk hpr hs
    dsimp only [lookup_nutrition_text]
    rw [if_neg hs]
    unfold primaryStage
    rw [hpr, hresp, hk]
    cases items with
    | nil => exact absurd rfl hne
    | cons a as => simp [hsum]

/-- Witness for C1 on the concrete zero-calorie environment. -/
theorem C1_witness :
    lookup_calories_calorieninjas true (HttpResult.resp 200 itemsZero)
      = Option.none ∧
    lookup_nutrition_text envZeroPrimary (some "rice")
      = some ⟨0, 0, 0, 0, "calorieninjas"⟩ :=
  have H := C1_amended true (HttpResult.resp 200 itemsZero) itemsZero 0 0 0 rfl
    (by decide)
    (by norm_num [itemsZero, ninjaSums, sumVals, pyFloat, orD, Val.truthy,
      Bind.bind, Except.bind])
  ⟨H.1, H.2 envZeroPrimary "rice" rfl rfl (by decide)⟩

/-- C2 counterexample, two concrete refutations.  First, the worked
example of the claim yields 1978.5, not the claimed 2016.3, because
10*70 + 6.25*175 - 5*30 + 5 is 1648.75 rather than 1680.25.  Second,
on the same profile with an explicit activity multiplier of 0 present,
the claimed formula (multiply by the explicit numeric multiplier when
present) would give the clamped value 1000, but the code treats the
zero multiplier as falsy, uses the sedentary level mapping 1.2, and
yields 1978.5. -/
theorem C2_counterexample :
    compute_daily_targets Option.none 2026 userFormulaEx
      = Except.ok ⟨1978.5, 1978.5⟩ ∧
    (10 * 70 + 6.25 * 175 - 5 * 30 + 5 : ℚ) = 1648.75 ∧
    (1978.5 : ℚ) ≠ 2016.3 ∧
    compute_daily_targets Option.none 2026 userZeroMult
      = Except.ok ⟨1978.5, 1978.5⟩ ∧
    spec_formula_target "male" 70 175 30 0 "maintain" = 1000 ∧
    (1978.5 : ℚ) ≠ 1000 := by
  have h1 : ¬ (("maintain" : String) = "lose") := by decide
  have h2 : ¬ (("maintain" : String) = "gain") := by decide
  refine ⟨?_, by norm_num, by norm_num, ?_, ?_, by norm_num⟩
  · norm_num [compute_daily_targets, predict_target_from_model, formula_target,
      compute_bmr, userAge, activity_multiplier_from_level, userFormulaEx,
      orD, Val.truthy, pyFloat, max_def, min_def, h1, h2]
  · norm_num [compute_daily_targets, predict_target_from_model, formula_target,
      compute_bmr, userAge, activity_multiplier_from_level, userZeroMult,
      orD, Val.truthy, pyFloat, max_def, min_def, h1, h2]
  · norm_num [spec_formula_target, mifflin_st_jeor, goal_adjust, h1, h2,
      max_def, min_def]

/-- C2 amended: with no truthy override, no model, and numeric nonzero
weight and height, the estimator returns exactly the claimed formula:
Mifflin-St Jeor floored at 800, times the multiplier, goal adjusted,
clamped to [1000, 4500].  The multiplier is the explicit numeric one
when it is present and nonzero; when it is absent, or present but
zero (falsy), the level mapping is used instead. -/
theorem C2_formula_path (y : ℤ) (u : UserProfile) (w h : ℚ)
    (htc : u.target_calories = Val.none ∨ u.target_calories = Val.num 0)
    (hw : u.weight_kg = Val.num w) (hw0 : w ≠ 0)
    (hh : u.height_cm = Val.num h) (hh0 : h ≠ 0) :
    (u.activity_multiplier = Val.none →
      compute_daily_targets Option.none y u = Except.ok
        ⟨spec_formula_target u.sex w h (userAge y u)
            (activity_multiplier_from_level u.activity_level) u.goal,
          spec_formula_target u.sex w h (userAge y u)
            (activity_multiplier_from_level u.activity_level) u.goal⟩) ∧
    (u.activity_multiplier = Val.num 0 →
      compute_daily_targets Option.none y u = Except.ok
        ⟨spec_formula_target u.sex w h (userAge y u)
            (activity_multiplier_from_level u.activity_level) u.goal,
          spec_formula_target u.sex w h (userAge y u)
            (activity_multiplier_from_level u.activity_level) u.goal⟩) ∧
    (∀ a : ℚ, a ≠ 0 → u.activity_multiplier = Val.num a →
      compute_daily_targets Option.none y u = Except.ok
        ⟨spec_formula_target u.sex w h (userAge y u) a u.goal,
          spec_formula_target u.sex w h (userAge y u) a u.goal⟩) := by
  have hstep : compute_daily_targets Option.none y u
      = Except.ok ⟨formula_target y u, formula_target y u⟩ := by
    unfold compute_daily_targets
    rcases htc with htc | htc <;> rw [htc] <;> simp [Val.truthy, predict_target_from_model]
  have hbmr : compute_bmr y u = max 800 (mifflin_st_jeor u.sex w h (userAge y u)) := by
    unfold compute_bmr mifflin_st_jeor
    rw [hw, hh, pyFloat_orD_eq _ _ (by simp), pyFloat_orD_eq _ _ (by simp)]
    simp only [valOrDefault, if_neg hw0, if_neg hh0]
    by_cases hs : u.sex = "male" <;> simp [hs]
  refine ⟨?_, ?_, ?_⟩
  · intro ha
    rw [hstep]
    unfold formula_target spec_formula_target goal_adjust
    rw [ha, hbmr]
    simp [Val.truthy, pyFloat]
  · intro ha
    rw [hstep]
    unfold formula_target spec_formula_target goal_adjust
    rw [ha, hbmr]
    simp [Val.truthy, pyFloat]
  · intro a ha0 ha
    rw [hstep]
    unfold formula_target spec_formula_target goal_adjust
    rw [ha, hbmr]
    simp [Val.truthy, ha0, pyFloat]

/-- Witness for C2 on the worked example profile, whose target is
1978.5. -/
theorem C2_witness :
    compute_daily_targets Option.none 2026 userFormulaEx = Except.ok
      ⟨spec_formula_target userFormulaEx.sex 70 175 (userAge 2026 userFormulaEx)
          (activity_multiplier_from_level userFormulaEx.activity_level) userFormulaEx.goal,
        spec_formula_target userFormulaEx.sex 70 175 (userAge 2026 userFormulaEx)
          (activity_multiplier_from_level userFormulaEx.activity_level) userFormulaEx.goal⟩ ∧
    spec_formula_target "male" 70 175 30 1.2 "maintain" = 1978.5 := by
  constructor
  · exact (C2_formula_path 2026 userFormulaEx 70 175 (Or.inl rfl) rfl
      (by norm_num) rfl (by norm_num)).1 rfl
  · have h1 : ¬ (("maintain" : String) = "lose") := by decide
    have h2 : ¬ (("maintain" : String) = "gain") := by decide
    norm_num [spec_formula_target, mifflin_st_jeor, goal_adjust, h1, h2,
      max_def, min_def]

/-- C3: a truthy numeric override is returned verbatim, whatever the
model and the rest of the profile. -/
theorem C3_override_verbatim (model : Option PyModel) (y : ℤ)
    (u : UserProfile) (q : ℚ) (hq : u.target_calories = Val.num q)
    (hq0 : q ≠ 0) :
    compute_daily_targets model y u = Except.ok ⟨q, q⟩ := by
  unfold compute_daily_targets
  rw [hq]
  simp [Val.truthy, hq0, pyFloat]

/-- Witness for C3: an override of 9999 is returned unclamped. -/
theorem C3_witness :
    compute_daily_targets Option.none 2026
        ⟨Val.num 9999, Option.none, "male", Val.num 175, Val.num 70, Val.none,
         "sedentary", "maintain"⟩
      = Except.ok ⟨9999, 9999⟩ ∧ (4500 : ℚ) < 9999 :=
  ⟨C3_override_verbatim Option.none 2026
      ⟨Val.num 9999, Option.none, "male", Val.num 175, Val.num 70, Val.none,
       "sedentary", "maintain"⟩ 9999 rfl (by norm_num),
   by norm_num⟩

/-- C4 counterexample: a negative burn signal drives the composite
score to -24.5, outside [0, 100]. -/
theorem C4_counterexample :
    compute_lifestyle_points (Val.num (-1000)) Val.none Val.none Val.none Val.none Val.none
      = Except.ok (-24.5) ∧ ((-24.5 : ℚ) < 0) := by
  refine ⟨?_, by norm_num⟩
  simp only [compute_lifestyle_points, orD, Val.truthy, calRatio]
  norm_num [score_range, pyFloat, pyround2, round_eq, Bind.bind, Except.bind, min_def]

/-- C4 amended: when the burn signal is absent or a nonnegative
number, the score is returned, lies in [0, 100], and has at most two
decimal places. -/
theorem C4_score_bounds (b sl mi ci t bpm : Val)
    (hb : b = Val.none ∨ ∃ q : ℚ, b = Val.num q ∧ 0 ≤ q) :
    compute_lifestyle_points b sl mi ci t bpm
        = Except.ok (lifestyleTotal b sl mi ci t bpm) ∧
      0 ≤ lifestyleTotal b sl mi ci t bpm ∧
      lifestyleTotal b sl mi ci t bpm ≤ 100 ∧
      (lifestyleTotal b sl mi ci t bpm).den ∣ 100 := by
  have hbj : b ≠ Val.junk := by
    rcases hb with rfl | ⟨q, rfl, _⟩ <;> simp
  have hbv : 0 ≤ valOrDefault b 0 := by
    rcases hb with rfl | ⟨q, rfl, hq⟩
    · simp [valOrDefault]
    · by_cases h0 : q = 0
      · simp [valOrDefault, h0]
      · simpa [valOrDefault, h0] using hq
  have hB0 : 0 ≤ min 1 (valOrDefault b 0 / 400) :=
    le_min zero_le_one (by positivity)
  have hB1 : min 1 (valOrDefault b 0 / 400) ≤ 1 := min_le_left _ _
  have hS1 := score_range_nonneg (orD sl 0) 4 7.5 9.5 (by norm_num) (by norm_num)
  have hS1u := score_range_le_one (orD sl 0) 4 7.5 9.5 (by norm_num) (by norm_num)
  have hS2 := score_range_nonneg (orD mi 3.5) 0.5 3.5 6 (by norm_num) (by norm_num)
  have hS2u := score_range_le_one (orD mi 3.5) 0.5 3.5 6 (by norm_num) (by norm_num)
  have hS3 := score_range_nonneg (Val.num (calRatio ci t)) 0.6 1 1.3 (by norm_num) (by norm_num)
  have hS3u := score_range_le_one (Val.num (calRatio ci t)) 0.6 1 1.3 (by norm_num) (by norm_num)
  have hS4 := score_range_nonneg (orD bpm 60) 40 64 86 (by norm_num) (by norm_num)
  have hS4u := score_range_le_one (orD bpm 60) 40 64 86 (by norm_num) (by norm_num)
  have harg0 : (0:ℚ) ≤ (0.28 * min 1 (valOrDefault b 0 / 400)
      + 0.25 * score_range (orD sl 0) 4 7.5 9.5
      + 0.18 * score_range (orD mi 3.5) 0.5 3.5 6
      + 0.20 * score_range (Val.num (calRatio ci t)) 0.6 1 1.3
      + 0.09 * score_range (orD bpm 60) 40 64 86) * 100 := by nlinarith
  have harg1 : (0.28 * min 1 (valOrDefault b 0 / 400)
      + 0.25 * score_range (orD sl 0) 4 7.5 9.5
      + 0.18 * score_range (orD mi 3.5) 0.5 3.5 6
      + 0.20 * score_range (Val.num (calRatio ci t)) 0.6 1 1.3
      + 0.09 * score_range (orD bpm 60) 40 64 86) * 100 ≤ 100 := by nlinarith
  have hbd := pyround2_bounds harg0 harg1
  refine ⟨compute_lifestyle_points_ok b sl mi ci t bpm hbj, hbd.1, hbd.2, ?_⟩
  unfold lifestyleTotal pyround2
  rw [show ((100:ℚ)) = ((100:ℤ):ℚ) by norm_num, ← Rat.divInt_eq_div]
  exact_mod_cast Rat.den_dvd (round (((0.28 * min 1 (valOrDefault b 0 / 400)
    + 0.25 * score_range (orD sl 0) 4 7.5 9.5
    + 0.18 * score_range (orD mi 3.5) 0.5 3.5 6
    + 0.20 * score_range (Val.num (calRatio ci t)) 0.6 1 1.3
    + 0.09 * score_range (orD bpm 60) 40 64 86) * 100) * 100)) (100 : ℤ)

/-- Witness for C4 at a nonnegative concrete burn signal. -/
theorem C4_witness :
    compute_lifestyle_points (Val.num 200) Val.none Val.none Val.none Val.none Val.none
        = Except.ok (lifestyleTotal (Val.num 200) Val.none Val.none Val.none Val.none Val.none) ∧
      0 ≤ lifestyleTotal (Val.num 200) Val.none Val.none Val.none Val.none Val.none ∧
      lifestyleTotal (Val.num 200) Val.none Val.none Val.none Val.none Val.none ≤ 100 ∧
      (lifestyleTotal (Val.num 200) Val.none Val.none Val.none Val.none Val.none).den ∣ 100 :=
  C4_score_bounds (Val.num 200) Val.none Val.none Val.none Val.none Val.none
    (Or.inr ⟨200, rfl, by norm_num⟩)

/-- C5: for parameters low < mid < high, score_range vanishes at and
outside the bounds, peaks at 1 on the mid value, follows the linear
ramps strictly inside each half, is monotonically non-decreasing on
[low, mid] and non-increasing on [mid, high], and yields 0 on a
missing or non-numeric input. -/
theorem C5_score_range_shape (l m h : ℚ) (hlm : l < m) (hmh : m < h) :
    score_range (Val.num l) l m h = 0 ∧
    score_range (Val.num h) l m h = 0 ∧
    score_range (Val.num m) l m h = 1 ∧
    (∀ v : ℚ, v ≤ l ∨ h ≤ v → score_range (Val.num v) l m h = 0) ∧
    (∀ v : ℚ, l < v → v < m → score_range (Val.num v) l m h = (v - l) / (m - l)) ∧
    (∀ v : ℚ, m < v → v < h → score_range (Val.num v) l m h = (h - v) / (h - m)) ∧
    (∀ v₁ v₂ : ℚ, l ≤ v₁ → v₁ ≤ v₂ → v₂ ≤ m →
      score_range (Val.num v₁) l m h ≤ score_range (Val.num v₂) l m h) ∧
    (∀ v₁ v₂ : ℚ, m ≤ v₁ → v₁ ≤ v₂ → v₂ ≤ h →
      score_range (Val.num v₂) l m h ≤ score_range (Val.num v₁) l m h) ∧
    score_range Val.none l m h = 0 ∧ score_range Val.junk l m h = 0 := by
  refine ⟨?_, ?_, ?_, ?_, ?_, ?_, ?_, ?_, ?_, ?_⟩
  · exact score_range_outside l m h l (Or.inl le_rfl)
  · exact score_range_outside l m h h (Or.inr le_rfl)
  · rw [score_range_up l m h m hlm hmh (le_of_lt hlm) le_rfl]
    exact div_self (by linarith)
  · exact fun v hv => score_range_outside l m h v hv
  · exact fun v h1 h2 =>
      score_range_up l m h v hlm hmh (le_of_lt h1) (le_of_lt h2)
  · exact fun v h1 h2 =>
      score_range_down l m h v hlm hmh (le_of_lt h1) (le_of_lt h2)
  · intro v₁ v₂ ha hb hc
    rw [score_range_up l m h v₁ hlm hmh ha (le_trans hb hc),
      score_range_up l m h v₂ hlm hmh (le_trans ha hb) hc]
    have hd : (0:ℚ) < m - l := by linarith
    exact (div_le_div_iff_of_pos_right hd).mpr (by linarith)
  · intro v₁ v₂ ha hb hc
    rw [score_range_down l m h v₁ hlm hmh ha (le_trans hb hc),
      score_range_down l m h v₂ hlm hmh (le_trans ha hb) hc]
    have hd : (0:ℚ) < h - m := by linarith
    exact (div_le_div_iff_of_pos_right hd).mpr (by linarith)
  · exact (score_range_not_num l m h).1
  · exact (score_range_not_num l m h).2

/-- Witness for C5 at the concrete triangle (0, 1, 2). -/
theorem C5_witness :
    score_range (Val.num 1) 0 1 2 = 1 ∧ score_range (Val.num 0) 0 1 2 = 0 :=
  ⟨(C5_score_range_shape 0 1 2 (by norm_num) (by norm_num)).2.2.1,
   (C5_score_range_shape 0 1 2 (by norm_num) (by norm_num)).1⟩

/-- C6: the flag rules fire in order with the first match winning,
any conversion failure behaves as an empty name with zero calories,
and the four concrete cases evaluate as stated. -/
theorem C6_meal_flag_rules :
    (∀ (m : Meal) (s : String), m.name = PyStr.str s → pyStrip s = "" →
      compute_flags_for_meal m = (true, "Missing meal name")) ∧
    (∀ m : Meal, m.name = PyStr.none →
      compute_flags_for_meal m = (true, "Missing meal name")) ∧
    (∀ m : Meal, m.name = PyStr.junk ∨ m.calories = Val.junk →
      compute_flags_for_meal m = (true, "Missing meal name")) ∧
    (∀ (m : Meal) (s : String) (c : ℚ), m.name = PyStr.str s → pyStrip s ≠ "" →
      m.calories = Val.num c → c ≤ 0 →
      compute_flags_for_meal m = (true, "Calories missing or zero")) ∧
    (∀ (m : Meal) (s : String), m.name = PyStr.str s → pyStrip s ≠ "" →
      m.calories = Val.none →
      compute_flags_for_meal m = (true, "Calories missing or zero")) ∧
    (∀ (m : Meal) (s : String) (c : ℚ), m.name = PyStr.str s → pyStrip s ≠ "" →
      m.calories = Val.num c → 2000 < c →
      compute_flags_for_meal m = (true, "Unusually high calories")) ∧
    (∀ (m : Meal) (s : String) (c : ℚ), m.name = PyStr.str s → pyStrip s ≠ "" →
      m.calories = Val.num c → 0 < c → c ≤ 2000 →
      compute_flags_for_meal m = (false, "")) ∧
    compute_flags_for_meal ⟨PyStr.str "", Val.num 500⟩ = (true, "Missing meal name") ∧
    compute_flags_for_meal ⟨PyStr.str "Apple", Val.num 0⟩ = (true, "Calories missing or zero") ∧
    compute_flags_for_meal ⟨PyStr.str "Burger", Val.num 2500⟩ = (true, "Unusually high calories") ∧
    compute_flags_for_meal ⟨PyStr.str "Salad", Val.num 350⟩ = (false, "") := by
  refine ⟨?_, ?_, ?_, ?_, ?_, ?_, ?_, by decide, by decide, by decide, by decide⟩
  · intro m s hn hs
    obtain ⟨name, cal⟩ := m
    cases hn
    cases hpc : pyFloat (orD cal 0) with
    | ok c => simp [compute_flags_for_meal, mealConv, hpc, hs, Bind.bind, Except.bind]
    | error e => simp [compute_flags_for_meal, mealConv, hpc, hs, Bind.bind, Except.bind]
  · intro m hn
    obtain ⟨name, cal⟩ := m
    cases hn
    cases hpc : pyFloat (orD cal 0) with
    | ok c => simp [compute_flags_for_meal, mealConv, hpc, Bind.bind, Except.bind]
    | error e => simp [compute_flags_for_meal, mealConv, hpc, Bind.bind, Except.bind]
  · intro m hm
    obtain ⟨name, cal⟩ := m
    rcases hm with hn | hc
    · cases hn
      simp [compute_flags_for_meal, mealConv, Bind.bind, Except.bind]
    · cases hc
      cases name <;>
        simp [compute_flags_for_meal, mealConv, pyFloat, orD, Val.truthy,
          Bind.bind, Except.bind]
  · intro m s c hn hs hc hc0
    obtain ⟨name, cal⟩ := m
    cases hn
    cases hc
    by_cases h0 : c = 0 <;>
      simp [compute_flags_for_meal, mealConv, pyFloat, orD, Val.truthy, hs, h0, hc0,
        Bind.bind, Except.bind]
  · intro m s hn hs hc
    obtain ⟨name, cal⟩ := m
    cases hn
    cases hc
    simp [compute_flags_for_meal, mealConv, pyFloat, orD, Val.truthy, hs,
      Bind.bind, Except.bind]
  · intro m s c hn hs hc hc0
    obtain ⟨name, cal⟩ := m
    cases hn
    cases hc
    have h0 : c ≠ 0 := by linarith
    simp [compute_flags_for_meal, mealConv, pyFloat, orD, Val.truthy, hs, h0, hc0,
      not_le_of_lt (by linarith : (0:ℚ) < c), Bind.bind, Except.bind]
  · intro m s c hn hs hc hc0 hc1
    obtain ⟨name, cal⟩ := m
    cases hn
    cases hc
    have h0 : c ≠ 0 := by linarith
    simp [compute_flags_for_meal, mealConv, pyFloat, orD, Val.truthy, hs, h0,
      not_le_of_lt hc0, not_lt_of_le hc1, Bind.bind, Except.bind]

/-- Witness for C6 on a meal with a numeric name conversion. -/
theorem C6_witness :
    compute_flags_for_meal ⟨PyStr.str "Tea", Val.num (-5)⟩
      = (true, "Calories missing or zero") :=
  C6_meal_flag_rules.2.2.2.1 ⟨PyStr.str "Tea", Val.num (-5)⟩ "Tea" (-5)
    rfl (by decide) rfl (by norm_num)

/-- C7 counterexample: a model that successfully predicts 0.0 is not
returned verbatim; the estimator falls through to the formula path. -/
theorem C7_counterexample :
    predict_target_from_model (some (fun _ => Except.ok 0)) 2026 userFormulaEx
      = Except.ok (some 0) ∧
    compute_daily_targets (some (fun _ => Except.ok 0)) 2026 userFormulaEx
      = Except.ok ⟨1978.5, 1978.5⟩ ∧
    (1978.5 : ℚ) ≠ 0 := by
  refine ⟨?_, ?_, by norm_num⟩
  · rw [predict_ok (fun _ => Except.ok 0) 2026 userFormulaEx
      (by decide) (by decide) (by decide)]
  · have h1 : ¬ (("maintain" : String) = "lose") := by decide
    have h2 : ¬ (("maintain" : String) = "gain") := by decide
    norm_num [compute_daily_targets, predict_target_from_model, formula_target,
      compute_bmr, userAge, activity_multiplier_from_level, userFormulaEx,
      orD, Val.truthy, pyFloat, max_def, min_def, h1, h2, Bind.bind, Except.bind]

/-- C7 amended: with no truthy override and numeric-or-absent profile
fields, a nonzero successful prediction is returned verbatim, and a
prediction failure makes the call behave exactly as if no model were
loaded (the formula path), with no exception. -/
theorem C7_model_paths (f : PyModel) (y : ℤ) (u : UserProfile)
    (htc : u.target_calories = Val.none ∨ u.target_calories = Val.num 0)
    (hh : u.height_cm ≠ Val.junk) (hw : u.weight_kg ≠ Val.junk)
    (ha : u.activity_multiplier ≠ Val.junk) :
    (∀ p : ℚ, p ≠ 0 → f (featureVec y u) = Except.ok p →
      compute_daily_targets (some f) y u = Except.ok ⟨p, p⟩) ∧
    (f (featureVec y u) = Except.error () →
      compute_daily_targets (some f) y u = compute_daily_targets Option.none y u) := by
  constructor
  · intro p hp hf
    unfold compute_daily_targets
    rcases htc with htc | htc <;>
      simp [htc, Val.truthy, predict_ok f y u hh hw ha, hf, hp]
  · intro hf
    have hnone : compute_daily_targets Option.none y u
        = Except.ok ⟨formula_target y u, formula_target y u⟩ := by
      unfold compute_daily_targets
      rcases htc with htc | htc <;>
        simp [htc, Val.truthy, predict_target_from_model]
    rw [hnone]
    unfold compute_daily_targets
    rcases htc with htc | htc <;>
      simp [htc, Val.truthy, predict_ok f y u hh hw ha, hf]

/-- Witness for C7: a model predicting 2500 is returned verbatim. -/
theorem C7_witness :
    compute_daily_targets (some (fun _ => Except.ok 2500)) 2026 userFormulaEx
      = Except.ok ⟨2500, 2500⟩ :=
  (C7_model_paths (fun _ => Except.ok 2500) 2026 userFormulaEx (Or.inl rfl)
    (by decide) (by decide) (by decide)).1 2500 (by norm_num) rfl

/-- C8 counterexample: a non-numeric burn signal escapes
compute_lifestyle_points as an exception, and a loaded model together
with a non-numeric height escapes compute_daily_targets. -/
theorem C8_counterexample :
    compute_lifestyle_points Val.junk Val.none Val.none Val.none Val.none Val.none
      = Except.error () ∧
    compute_daily_targets (some (fun _ => Except.ok 2000)) 2026
      ⟨Val.none, Option.none, "male", Val.junk, Val.num 70, Val.none, "sedentary", "maintain"⟩
      = Except.error () :=
  ⟨rfl, rfl⟩

/-- C8 amended: estimate never raises when no model is loaded and,
with a model, never raises on numeric-or-absent profile fields; score
never raises when the burn signal is numeric or absent; flag is total
with one of the four rule outcomes. -/
theorem C8_totality :
    (∀ (y : ℤ) (u : UserProfile),
      compute_daily_targets Option.none y u ≠ Except.error ()) ∧
    (∀ (f : PyModel) (y : ℤ) (u : UserProfile),
      u.height_cm ≠ Val.junk → u.weight_kg ≠ Val.junk →
      u.activity_multiplier ≠ Val.junk →
      compute_daily_targets (some f) y u ≠ Except.error ()) ∧
    (∀ b sl mi ci t bpm : Val, b ≠ Val.junk →
      compute_lifestyle_points b sl mi ci t bpm ≠ Except.error ()) ∧
    (∀ m : Meal,
      compute_flags_for_meal m = (true, "Missing meal name") ∨
      compute_flags_for_meal m = (true, "Calories missing or zero") ∨
      compute_flags_for_meal m = (true, "Unusually high calories") ∨
      compute_flags_for_meal m = (false, "")) := by
  refine ⟨?_, ?_, ?_, ?_⟩
  · intro y u
    unfold compute_daily_targets
    cases hv : (if u.target_calories.truthy then pyFloat u.target_calories
        else Except.error ()) with
    | ok q => simp [hv]
    | error e => simp [hv, predict_target_from_model]
  · intro f y u hh hw ha
    unfold compute_daily_targets
    cases hv : (if u.target_calories.truthy then pyFloat u.target_calories
        else Except.error ()) with
    | ok q => simp [hv]
    | error e =>
      rw [predict_ok f y u hh hw ha]
      cases hf : f (featureVec y u) with
      | ok p =>
        by_cases hp : p = 0 <;> simp [hv, hf, hp]
      | error e2 => simp [hv, hf]
  · intro b sl mi ci t bpm hb
    rw [compute_lifestyle_points_ok b sl mi ci t bpm hb]
    simp
  · intro m
    unfold compute_flags_for_meal
    split_ifs <;> simp

/-- Witness for C8: an all-junk profile and all-absent signals. -/
theorem C8_witness :
    compute_daily_targets Option.none 2026
        ⟨Val.junk, Option.none, "?", Val.junk, Val.junk, Val.junk, "?", "?"⟩
      ≠ Except.error () ∧
    compute_lifestyle_points Val.none Val.none Val.none Val.none Val.none Val.none
      ≠ Except.error () :=
  ⟨C8_totality.1 2026 ⟨Val.junk, Option.none, "?", Val.junk, Val.junk, Val.junk, "?", "?"⟩,
   C8_totality.2.2.1 Val.none Val.none Val.none Val.none Val.none Val.none (by decide)⟩

/-- C9: with all six signals absent the sub-scores are burn 0, sleep 0,
meal interval 1, calorie ratio 1 with score 1, heart rate 5/6, and the
composite is round(100 * (0.18 + 0.20 + 0.09 * 5/6), 2) = 45.5. -/
theorem C9_all_defaults_composite :
    min 1 ((0:ℚ) / 400) = 0 ∧
    score_range (Val.num 0) 4 7.5 9.5 = 0 ∧
    score_range (Val.num 3.5) 0.5 3.5 6 = 1 ∧
    calRatio Val.none Val.none = 1 ∧
    score_range (Val.num 1) 0.6 1 1.3 = 1 ∧
    score_range (Val.num 60) 40 64 86 = 5 / 6 ∧
    pyround2 (100 * (0.18 + 0.20 + 0.09 * (5 / 6))) = 45.5 ∧
    compute_lifestyle_points Val.none Val.none Val.none Val.none Val.none Val.none
      = Except.ok 45.5 := by
  refine ⟨by norm_num, ?_, ?_, by norm_num [calRatio], ?_, ?_, ?_, ?_⟩
  · norm_num [score_range, pyFloat]
  · norm_num [score_range, pyFloat]
  · norm_num [score_range, pyFloat]
  · norm_num [score_range, pyFloat]
  · norm_num [pyround2, round_eq]
  · simp only [compute_lifestyle_points, orD, Val.truthy, calRatio]
    norm_num [score_range, pyFloat, pyround2, round_eq, Bind.bind, Except.bind]

/-- C10: an absent, empty, or whitespace-only query returns absent at
once, whatever the three sources would have answered. -/
theorem C10_blank_query_absent (e : LookupEnv) (t : Option String)
    (ht : t = Option.none ∨ ∃ s, t = some s ∧ pyStrip s = "") :
    lookup_nutrition_text e t = Option.none := by
  rcases ht with rfl | ⟨s, rfl, hs⟩
  · rfl
  · simp [lookup_nutrition_text, hs]

/-- Witness for C10: a whitespace query against fully live sources. -/
theorem C10_witness :
    lookup_nutrition_text envAllLive (some "  ") = Option.none :=
  C10_blank_query_absent envAllLive (some "  ")
    (Or.inr ⟨"  ", rfl, by decide⟩)
